import Mathlib

/-!
Shallow embedding of the Spatial Grid Engine of `backend/data_processor.py`
(class `NYCEmissionsData`), covering the intervention-application algorithm
(`apply_intervention`), the geometry utility (`_is_in_target_area`,
`_is_in_nyc_boundaries`), the sensor blender (`_blend_openaq_data`) and the
grid accessor (`get_baseline_grid`).

Conventions of the embedding:
- Python floats are modelled as real numbers; numeric literals are carried
  over exactly (for example `0.01`, `111.0`, `0.0025`).
- The grid `modified_emissions` is a function `ℕ → ℕ → ℝ`; the nested
  `for i / for j` loops of the source mutate each cell independently of all
  other cells, so a loop pass is modelled as a pointwise map over the grid.
- `dict.get` with a default is modelled with `Option.getD`; a `dict.get`
  returning `None` that then flows into arithmetic (missing `lat`/`lon` of a
  hotspot rule) raises a `TypeError` in Python, modelled as `Except.error`
  (raised exactly when the cell loops run at least once, that is when the
  grid is non-empty).
- The spec file names the three modification kinds `hotspot`, `region` and
  `floor`; the source's discriminator strings for the latter two are
  `'borough'` and `'baseline'` (`apply_intervention`, lines 663/681/691).
- `self.nyc_boundaries` (a GeoDataFrame loaded from a GeoJSON file that is
  not part of the repository) is modelled abstractly: a list of rows, each
  carrying its `boro_name` string and its `geometry.contains` test, plus the
  `unary_union.contains` test used by `_is_in_nyc_boundaries`.  When it is
  `none` the code is in the rectangular-fallback mode.
-/

noncomputable section

namespace DataProcessor

/-- Mirrors Python `needle in haystack` substring membership via a character
prefix test at every offset. -/
def listPre : List Char → List Char → Bool
  | [], _ => true
  | _ :: _, [] => false
  | a :: as, b :: bs => a == b && listPre as bs

/-- Python's `needle in haystack` substring test on strings. -/
def strIn (needle haystack : String) : Bool :=
  (List.range (haystack.toList.length + 1)).any
    (fun k => listPre needle.toList (haystack.toList.drop k))

/-- Python `str.lower()` restricted to the ASCII names used by the code. -/
def strLower (s : String) : String := ⟨s.data.map Char.toLower⟩

/-- Axis-aligned rectangle `(min_lat, max_lat, min_lon, max_lon)` of the
fallback borough-bounds tables. -/
structure RectBounds where
  min_lat : ℝ
  max_lat : ℝ
  min_lon : ℝ
  max_lon : ℝ

/-- The `borough_bounds` dict literal shared by `_is_in_nyc_boundaries` and
`_is_in_target_area` (data_processor.py lines 1134-1140 and 1170-1176). -/
def boroughBoundsRect : List (String × RectBounds) :=
  [("Manhattan", ⟨40.70, 40.88, -74.019, -73.907⟩),
   ("Brooklyn", ⟨40.57, 40.74, -74.042, -73.833⟩),
   ("Queens", ⟨40.54, 40.80, -73.962, -73.70⟩),
   ("Bronx", ⟨40.785, 40.92, -73.933, -73.765⟩),
   ("Staten Island", ⟨40.495, 40.651, -74.255, -74.053⟩)]

/-- Python `min_lat <= lat <= max_lat and min_lon <= lon <= max_lon`. -/
def inRectB (lat lon : ℝ) (r : RectBounds) : Bool :=
  decide (r.min_lat ≤ lat ∧ lat ≤ r.max_lat ∧ r.min_lon ≤ lon ∧ lon ≤ r.max_lon)

/-- One row of `self.nyc_boundaries`: its `boro_name` attribute and its
`geometry.contains(point)` test. -/
structure GeoRow where
  boro_name : String
  containsPt : ℝ → ℝ → Bool

/-- The loaded GeoJSON boundary data: the rows, plus the
`nyc_boundary_union.contains(point)` test used for citywide filtering. -/
structure GeoData where
  rows : List GeoRow
  unionContains : ℝ → ℝ → Bool

/-- `NYCEmissionsData._is_in_nyc_boundaries` (lines 1121-1147): GeoJSON union
containment when boundary data is loaded, otherwise any of the five fallback
rectangles. -/
def isInNYCBoundaries (bnd : Option GeoData) (lat lon : ℝ) : Bool :=
  match bnd with
  | some gd => gd.unionContains lat lon
  | none => boroughBoundsRect.any (fun p => inRectB lat lon p.2)

/-- `NYCEmissionsData._is_in_target_area` (lines 1149-1182).  `citywide`/`all`
(case-insensitively) is always inside; with polygon data the first row whose
lowered `boro_name` contains, or is contained in, the lowered target decides
via its geometry; in rectangular fallback an exact dict-key match decides via
the rectangle, and an unmatched name defaults to `True` (apply citywide). -/
def isInTargetArea (bnd : Option GeoData) (lat lon : ℝ) (target : String) : Bool :=
  if strLower target = "citywide" || strLower target = "all" then true
  else
    match bnd with
    | some gd =>
      match gd.rows.find? (fun row =>
          strIn (strLower target) (strLower row.boro_name) ||
          strIn (strLower row.boro_name) (strLower target)) with
      | some row => row.containsPt lat lon
      | none => false
    | none =>
      match boroughBoundsRect.find? (fun p => p.1 == target) with
      | some p => inRectB lat lon p.2
      | none => true

/-- One element of `intervention['geographic_modifications']`.  Every field is
optional because the source reads each one with `dict.get`. -/
structure GeoMod where
  type : Option String := none
  area : Option String := none
  change_percent : Option ℝ := none
  lat : Option ℝ := none
  lon : Option ℝ := none
  radius_km : Option ℝ := none

/-- The `real_emissions` reporting record written by the unrelated branch of
`apply_intervention` (lines 635-641). -/
structure RealEmissions where
  baseline_tons_co2 : ℝ
  reduced_tons_co2 : ℝ
  annual_savings_tons_co2 : ℝ
  percentage_reduction : ℝ
  is_unrelated : Bool

/-- The parts of the intervention dict that `apply_intervention` reads. -/
structure Intervention where
  is_unrelated : Bool := false
  geographic_modifications : List GeoMod := []
  spatial_pattern : Option (List (ℝ × ℝ × ℝ)) := none

/-- The state of an `NYCEmissionsData` instance that `apply_intervention`
consumes: the cached `(lats, lons, baseline_emissions)` triple (index arrays
as functions, with their lengths) and the loaded boundary data. -/
structure Env where
  nlat : ℕ
  nlon : ℕ
  lats : ℕ → ℝ
  lons : ℕ → ℝ
  baseline : ℕ → ℕ → ℝ
  boundaries : Option GeoData

/-- `np.sqrt((lat - target_lat)**2 + (lon - target_lon)**2)`. -/
def ptDist (lat lon tlat tlon : ℝ) : ℝ :=
  Real.sqrt ((lat - tlat) ^ 2 + (lon - tlon) ^ 2)

/-- Degree-space distance from grid cell `(i, j)` to a target point. -/
def cellDist (env : Env) (i j : ℕ) (tlat tlon : ℝ) : ℝ :=
  ptDist (env.lats i) (env.lons j) tlat tlon

/-- `np.exp(-distance**2 / (2 * (radius_deg/2.0)**2))`, the hotspot Gaussian
falloff (line 677), parametrised by the radius in degrees. -/
def gaussWeight (rdeg d : ℝ) : ℝ :=
  Real.exp (-(d ^ 2) / (2 * (rdeg / 2) ^ 2))

/-- One pass of the `for mod in geographic_modifications` loop of
`apply_intervention` (lines 658-700), applied to the current grid `g`.
A `hotspot` rule with a missing `lat` or `lon` raises a `TypeError` inside
the cell loop (so only when the grid is non-empty); every other case mutates
each cell independently. -/
def applyMod (env : Env) (g : ℕ → ℕ → ℝ) (m : GeoMod) : Except String (ℕ → ℕ → ℝ) :=
  let cp := m.change_percent.getD 0 / 100
  if m.type = some "hotspot" then
    match m.lat, m.lon with
    | some tlat, some tlon =>
      let rdeg := m.radius_km.getD 5 / 111
      .ok (fun i j =>
        let d := ptDist (env.lats i) (env.lons j) tlat tlon
        if d < rdeg then g i j * max 0.01 (1 + cp * gaussWeight rdeg d)
        else g i j)
    | _, _ =>
      if 0 < env.nlat ∧ 0 < env.nlon then
        .error "TypeError: unsupported operand types for subtraction: float and NoneType"
      else .ok g
  else if m.type = some "borough" then
    .ok (fun i j =>
      if isInTargetArea env.boundaries (env.lats i) (env.lons j) (m.area.getD "Unknown") then
        g i j * max 0.01 (1 + cp)
      else g i j)
  else if m.type = some "baseline" then
    .ok (fun i j =>
      if env.baseline i j < 20 then g i j * max 0.01 (1 + cp)
      else g i j)
  else .ok g

/-- The multiplicative factor that one modification applies to cell `(i, j)`,
for a rule that does not raise.  It depends only on the rule, the cell's
coordinates and the cached baseline value — never on the evolving grid. -/
def modFactor (env : Env) (m : GeoMod) (i j : ℕ) : ℝ :=
  let cp := m.change_percent.getD 0 / 100
  if m.type = some "hotspot" then
    match m.lat, m.lon with
    | some tlat, some tlon =>
      let rdeg := m.radius_km.getD 5 / 111
      let d := ptDist (env.lats i) (env.lons j) tlat tlon
      if d < rdeg then max 0.01 (1 + cp * gaussWeight rdeg d) else 1
    | _, _ => 1
  else if m.type = some "borough" then
    if isInTargetArea env.boundaries (env.lats i) (env.lons j) (m.area.getD "Unknown") then
      max 0.01 (1 + cp)
    else 1
  else if m.type = some "baseline" then
    if env.baseline i j < 20 then max 0.01 (1 + cp) else 1
  else 1

/-- A modification that does not raise a `TypeError`: a hotspot rule must
carry both coordinates. -/
def WellFormedMod (m : GeoMod) : Prop :=
  m.type = some "hotspot" → m.lat.isSome ∧ m.lon.isSome

/-- The whole modification loop: left fold of `applyMod` over the rule list,
starting from (a copy of) the cached baseline grid. -/
def applyModsGrid (env : Env) (mods : List GeoMod) : Except String (ℕ → ℕ → ℝ) :=
  mods.foldlM (applyMod env) env.baseline

/-- One pass of the spatial-pattern loop (lines 707-715) for a single pattern
point `(pattern_lat, pattern_lon, pattern_intensity)`. -/
def applyPatternPoint (env : Env) (g : ℕ → ℕ → ℝ) (p : ℝ × ℝ × ℝ) : ℕ → ℕ → ℝ :=
  fun i j =>
    if ptDist (env.lats i) (env.lons j) p.1 p.2.1 < 0.05 then
      g i j * (1 + (p.2.2 - 0.5) * 0.2)
    else g i j

/-- The `if 'spatial_pattern' in intervention` block (lines 702-715). -/
def applyPattern (env : Env) (g : ℕ → ℕ → ℝ) :
    Option (List (ℝ × ℝ × ℝ)) → (ℕ → ℕ → ℝ)
  | none => g
  | some ps => ps.foldl (applyPatternPoint env) g

/-- Conversion of a grid to the boundary-filtered `(lat, lon, value)` point
list (lines 717-722, identical to the loop in `get_baseline_grid`). -/
def gridPoints (env : Env) (g : ℕ → ℕ → ℝ) : List (ℝ × ℝ × ℝ) :=
  (List.range env.nlat).flatMap (fun i =>
    (List.range env.nlon).filterMap (fun j =>
      if isInNYCBoundaries env.boundaries (env.lats i) (env.lons j) then
        some (env.lats i, env.lons j, g i j)
      else none))

/-- `NYCEmissionsData.get_baseline_grid` (lines 589-613) on a cached baseline. -/
def getBaselineGrid (env : Env) : List (ℝ × ℝ × ℝ) :=
  gridPoints env env.baseline

/-- `NYCEmissionsData.apply_intervention` (lines 615-724).  Returns the
filtered point list together with the `real_emissions` record that the
function writes back into the intervention dict (`some` zeroed record in the
unrelated branch, untouched otherwise). -/
def applyIntervention (env : Env) (iv : Intervention) :
    Except String (List (ℝ × ℝ × ℝ) × Option RealEmissions) :=
  if iv.is_unrelated then
    .ok (gridPoints env env.baseline,
         some { baseline_tons_co2 := 0, reduced_tons_co2 := 0,
                annual_savings_tons_co2 := 0, percentage_reduction := 0,
                is_unrelated := true })
  else
    (applyModsGrid env iv.geographic_modifications).map (fun g =>
      (gridPoints env (applyPattern env g iv.spatial_pattern), none))

/-- One OpenAQ station measurement as consumed by `_blend_openaq_data`. -/
structure Station where
  lat : ℝ
  lon : ℝ
  value : ℝ

/-- `np.argmin(np.abs(arr - x))` over the first `n` indices: the first index
of minimal absolute deviation. -/
def argminAbs (f : ℕ → ℝ) (x : ℝ) (n : ℕ) : ℕ :=
  (List.range n).foldl (fun best k => if |f k - x| < |f best - x| then k else best) 0

/-- The body of the `for station in openaq_data` loop of
`_blend_openaq_data` (lines 567-585): locate the nearest grid cell and blend
the converted measurement into the radius-2 index neighbourhood. -/
def blendStation (lats lons : ℕ → ℝ) (nlat nlon : ℕ)
    (g : ℕ → ℕ → ℝ) (s : Station) : ℕ → ℕ → ℝ :=
  let proxy := s.value * 0.0025
  let li := argminAbs lats s.lat nlat
  let lj := argminAbs lons s.lon nlon
  fun i j =>
    if (li - 2 ≤ i ∧ i < min nlat (li + 3)) ∧ (lj - 2 ≤ j ∧ j < min nlon (lj + 3)) then
      let d := Real.sqrt (((i : ℝ) - li) ^ 2 + ((j : ℝ) - lj) ^ 2)
      g i j * 0.7 + proxy * 0.3 * Real.exp (-(d ^ 2) / 2)
    else g i j

/-- `NYCEmissionsData._blend_openaq_data` (lines 557-587): fold the station
list over the grid (an empty list returns the grid unchanged, exactly as the
early-return does). -/
def blendOpenaq (lats lons : ℕ → ℝ) (nlat nlon : ℕ)
    (g : ℕ → ℕ → ℝ) (stations : List Station) : ℕ → ℕ → ℝ :=
  stations.foldl (blendStation lats lons nlat nlon) g

/-- Boundary data with no rows whose union test keeps every point (used to
exercise the engine on small concrete grids). -/
def trivGeo : GeoData := { rows := [], unionContains := fun _ _ => true }

/-- A 1x1 grid over a single Manhattan point with baseline value 10. -/
def env1 : Env :=
  { nlat := 1, nlon := 1, lats := fun _ => 40.70, lons := fun _ => -73.95,
    baseline := fun _ _ => 10, boundaries := some trivGeo }

/-- A `baseline`-type rule (the spec's `floor` kind) with a -100% change. -/
def modB : GeoMod := { type := some "baseline", change_percent := some (-100) }

/-- An intervention stacking the -100% floor rule twice. -/
def iv1 : Intervention := { geographic_modifications := [modB, modB] }

/-- A 1x2 grid: cell (0,0) sits at the hotspot centre, cell (0,1) sits 0.1
degrees away in longitude. -/
def env3 : Env :=
  { nlat := 1, nlon := 2, lats := fun _ => 40.70,
    lons := fun j => if j = 0 then -73.95 else -74.05,
    baseline := fun _ _ => 100, boundaries := some trivGeo }

/-- A hotspot rule with a -200% change over a 111 km (one-degree) radius. -/
def h3 : GeoMod :=
  { type := some "hotspot", change_percent := some (-200),
    lat := some 40.70, lon := some (-73.95), radius_km := some 111 }

/-- A single OpenAQ station sitting exactly on the 1x1 grid's only cell. -/
def stat6 : Station := { lat := 40.70, lon := -73.95, value := 40 }

/-- Boundary data holding only a Manhattan row whose polygon test keeps every
point. -/
def gd10 : GeoData :=
  { rows := [{ boro_name := "Manhattan", containsPt := fun _ _ => true }],
    unionContains := fun _ _ => true }

/-- A 1x1 grid with polygon boundary data present. -/
def env10 : Env :=
  { nlat := 1, nlon := 1, lats := fun _ => 40.78, lons := fun _ => -73.97,
    baseline := fun _ _ => 100, boundaries := some gd10 }

/-- A borough rule whose area name is lowercase `manhattan`: not equal to any
exact dict key, yet a case-insensitive substring match for `Manhattan`. -/
def m10 : GeoMod :=
  { type := some "borough", area := some "manhattan", change_percent := some (-30) }

/-- A borough rule that is missing its required `change_percent` field. -/
def m8 : GeoMod := { type := some "borough", area := some "Manhattan" }

/-- An intervention with a single malformed rule (no `change_percent`). -/
def iv8 : Intervention := { geographic_modifications := [m8] }

/-- A hotspot rule at the env1 cell, -20%, radius 5 km. -/
def h2w : GeoMod :=
  { type := some "hotspot", change_percent := some (-20),
    lat := some 40.70, lon := some (-73.95), radius_km := some 5 }

/-- A citywide borough rule at -20%. -/
def b2w : GeoMod :=
  { type := some "borough", change_percent := some (-20), area := some "citywide" }

/-- Boundary data holding only a `TestZone` row whose polygon test keeps every
point (so the zone contains exactly the one cell of a 1x1 grid). -/
def gd7 : GeoData :=
  { rows := [{ boro_name := "TestZone", containsPt := fun _ _ => true }],
    unionContains := fun _ _ => true }

/-- A 1x1 uniform-100 grid whose boundary data is the TestZone row. -/
def env7 : Env :=
  { nlat := 1, nlon := 1, lats := fun _ => 40.70, lons := fun _ => -73.95,
    baseline := fun _ _ => 100, boundaries := some gd7 }

/-- The region rule of the end-to-end scenario: TestZone at -30%. -/
def m7 : GeoMod :=
  { type := some "borough", area := some "TestZone", change_percent := some (-30) }

/-- A well-formed hotspot rule with a degenerate (zero) radius. -/
def m9 : GeoMod :=
  { type := some "hotspot", change_percent := some (-50),
    lat := some 40.70, lon := some (-73.95), radius_km := some 0 }

/-- A floor rule at -50% (the spec's floor-scope test value). -/
def m5 : GeoMod := { type := some "baseline", change_percent := some (-50) }

/-- An intervention flagged as unrelated. -/
def ivU : Intervention := { is_unrelated := true }

/-- A hotspot rule with a moderate -50% change over a one-degree radius. -/
def m3w : GeoMod :=
  { type := some "hotspot", change_percent := some (-50),
    lat := some 40.70, lon := some (-73.95), radius_km := some 111 }

/-- A uniform grid of value 100 for the blender scenarios. -/
def g6 : ℕ → ℕ → ℝ := fun _ _ => 100

/-- A non-raising modification pass is exactly a pointwise multiplication by
its per-cell factor. -/
theorem applyMod_eq (env : Env) (g : ℕ → ℕ → ℝ) (m : GeoMod)
    (hwf : WellFormedMod m) :
    applyMod env g m = .ok (fun i j => g i j * modFactor env m i j) := by
  by_cases ht : m.type = some "hotspot"
  · obtain ⟨hla, hlo⟩ := hwf ht
    obtain ⟨tlat, hla'⟩ := Option.isSome_iff_exists.mp hla
    obtain ⟨tlon, hlo'⟩ := Option.isSome_iff_exists.mp hlo
    simp only [applyMod, modFactor, ht, if_true, hla', hlo']
    congr 1
    funext i j
    by_cases hd : ptDist (env.lats i) (env.lons j) tlat tlon < m.radius_km.getD 5 / 111
    · simp only [if_pos hd]
    · simp only [if_neg hd, mul_one]
  · by_cases hb : m.type = some "borough"
    · simp only [applyMod, modFactor, hb, Option.some.injEq,
        show (("borough" : String) = "hotspot") = False from eq_false (by decide),
        if_false]
      norm_num
    · by_cases hba : m.type = some "baseline"
      · simp only [applyMod, modFactor, hba, Option.some.injEq,
          show (("baseline" : String) = "hotspot") = False from eq_false (by decide),
          show (("baseline" : String) = "borough") = False from eq_false (by decide),
          if_false]
        norm_num
      · simp only [applyMod, modFactor, if_neg ht, if_neg hb, if_neg hba]
        congr 1
        funext i j
        simp

/-- Every per-cell factor is at least the 0.01 floor. -/
theorem modFactor_ge (env : Env) (m : GeoMod) (i j : ℕ) :
    (0.01 : ℝ) ≤ modFactor env m i j := by
  unfold modFactor
  dsimp only
  split
  · split
    · split
      · exact le_max_left _ _
      · norm_num
    · norm_num
  · split
    · split
      · exact le_max_left _ _
      · norm_num
    · split
      · split
        · exact le_max_left _ _
        · norm_num
      · norm_num

/-- Every per-cell factor is strictly positive. -/
theorem modFactor_pos (env : Env) (m : GeoMod) (i j : ℕ) :
    (0 : ℝ) < modFactor env m i j :=
  lt_of_lt_of_le (by norm_num) (modFactor_ge env m i j)

/-- The modification loop from an arbitrary start grid multiplies each cell by
the product of the per-rule factors, in rule order. -/
theorem foldlM_applyMod_eq (env : Env) (mods : List GeoMod)
    (hwf : ∀ m ∈ mods, WellFormedMod m) :
    ∀ g : ℕ → ℕ → ℝ, mods.foldlM (applyMod env) g =
      .ok (fun i j => g i j * ((mods.map (fun m => modFactor env m i j)).prod)) := by
  induction mods with
  | nil =>
    intro g
    simp only [List.foldlM_nil, List.map_nil, List.prod_nil, mul_one]
    rfl
  | cons m ms ih =>
    intro g
    have hm : WellFormedMod m := hwf m (List.mem_cons_self m ms)
    have hms : ∀ m' ∈ ms, WellFormedMod m' := fun m' h => hwf m' (List.mem_cons_of_mem m h)
    rw [List.foldlM_cons, applyMod_eq env g m hm]
    have hbind : ∀ (x : ℕ → ℕ → ℝ) (f : (ℕ → ℕ → ℝ) → Except String (ℕ → ℕ → ℝ)),
        (Except.ok x >>= f) = f x := fun _ _ => rfl
    rw [hbind, ih hms]
    congr 1
    funext i j
    simp [mul_assoc]

/-- `applyModsGrid` in closed multiplicative form over the cached baseline. -/
theorem applyModsGrid_eq (env : Env) (mods : List GeoMod)
    (hwf : ∀ m ∈ mods, WellFormedMod m) :
    applyModsGrid env mods =
      .ok (fun i j => env.baseline i j *
        ((mods.map (fun m => modFactor env m i j)).prod)) :=
  foldlM_applyMod_eq env mods hwf env.baseline

/-- The product of per-rule factors is at least `0.01 ^ (number of rules)`
and strictly positive. -/
theorem prod_modFactor_ge (env : Env) (i j : ℕ) (mods : List GeoMod) :
    (0.01 : ℝ) ^ mods.length ≤ ((mods.map (fun m => modFactor env m i j)).prod) ∧
      (0 : ℝ) < ((mods.map (fun m => modFactor env m i j)).prod) := by
  induction mods with
  | nil => simp
  | cons m ms ih =>
    constructor
    · simp only [List.map_cons, List.prod_cons, List.length_cons, pow_succ]
      have h1 := modFactor_ge env m i j
      have h2 := ih.1
      have h3 := ih.2
      calc (0.01 : ℝ) ^ ms.length * 0.01
          ≤ ((ms.map (fun m => modFactor env m i j)).prod) * modFactor env m i j := by
            apply mul_le_mul h2 h1 (by norm_num) (le_of_lt h3)
        _ = modFactor env m i j * ((ms.map (fun m => modFactor env m i j)).prod) := by
            ring
    · simp only [List.map_cons, List.prod_cons]
      exact mul_pos (modFactor_pos env m i j) ih.2

/-- Point conversion of a 1x1 grid whose single cell passes the boundary
filter. -/
theorem gridPoints_one (env : Env) (h1 : env.nlat = 1) (h2 : env.nlon = 1)
    (hin : isInNYCBoundaries env.boundaries (env.lats 0) (env.lons 0) = true)
    (g : ℕ → ℕ → ℝ) :
    gridPoints env g = [(env.lats 0, env.lons 0, g 0 0)] := by
  simp [gridPoints, h1, h2, show List.range 1 = [0] from rfl, hin]

/-- Branch equation: a `borough`-typed rule. -/
theorem applyMod_borough (env : Env) (g : ℕ → ℕ → ℝ) (m : GeoMod)
    (hb : m.type = some "borough") :
    applyMod env g m = .ok (fun i j =>
      if isInTargetArea env.boundaries (env.lats i) (env.lons j) (m.area.getD "Unknown") then
        g i j * max 0.01 (1 + m.change_percent.getD 0 / 100)
      else g i j) := by
  simp only [applyMod, hb, Option.some.injEq,
    show (("borough" : String) = "hotspot") = False from eq_false (by decide),
    if_false, if_true]

/-- Branch equation: a `baseline`-typed (floor) rule. -/
theorem applyMod_baseline (env : Env) (g : ℕ → ℕ → ℝ) (m : GeoMod)
    (hb : m.type = some "baseline") :
    applyMod env g m = .ok (fun i j =>
      if env.baseline i j < 20 then g i j * max 0.01 (1 + m.change_percent.getD 0 / 100)
      else g i j) := by
  simp only [applyMod, hb, Option.some.injEq,
    show (("baseline" : String) = "hotspot") = False from eq_false (by decide),
    show (("baseline" : String) = "borough") = False from eq_false (by decide),
    if_false, if_true]

/-- Branch equation: a well-formed `hotspot`-typed rule. -/
theorem applyMod_hotspot (env : Env) (g : ℕ → ℕ → ℝ) (m : GeoMod) (tlat tlon : ℝ)
    (ht : m.type = some "hotspot") (hla : m.lat = some tlat) (hlo : m.lon = some tlon) :
    applyMod env g m = .ok (fun i j =>
      if ptDist (env.lats i) (env.lons j) tlat tlon < m.radius_km.getD 5 / 111 then
        g i j * max 0.01 (1 + (m.change_percent.getD 0 / 100) *
          gaussWeight (m.radius_km.getD 5 / 111) (ptDist (env.lats i) (env.lons j) tlat tlon))
      else g i j) := by
  simp only [applyMod, ht, hla, hlo, if_true]

/-- Per-cell factor of a well-formed `hotspot`-typed rule. -/
theorem modFactor_hotspot (env : Env) (m : GeoMod) (tlat tlon : ℝ) (i j : ℕ)
    (ht : m.type = some "hotspot") (hla : m.lat = some tlat) (hlo : m.lon = some tlon) :
    modFactor env m i j =
      if ptDist (env.lats i) (env.lons j) tlat tlon < m.radius_km.getD 5 / 111 then
        max 0.01 (1 + (m.change_percent.getD 0 / 100) *
          gaussWeight (m.radius_km.getD 5 / 111) (ptDist (env.lats i) (env.lons j) tlat tlon))
      else 1 := by
  simp only [modFactor, ht, hla, hlo, if_true]

/-- Per-cell factor of a `borough`-typed rule. -/
theorem modFactor_borough (env : Env) (m : GeoMod) (i j : ℕ)
    (hb : m.type = some "borough") :
    modFactor env m i j =
      if isInTargetArea env.boundaries (env.lats i) (env.lons j) (m.area.getD "Unknown") then
        max 0.01 (1 + m.change_percent.getD 0 / 100)
      else 1 := by
  simp only [modFactor, hb, Option.some.injEq,
    show (("borough" : String) = "hotspot") = False from eq_false (by decide),
    if_false, if_true]

/-- Per-cell factor of a `baseline`-typed rule. -/
theorem modFactor_baseline (env : Env) (m : GeoMod) (i j : ℕ)
    (hb : m.type = some "baseline") :
    modFactor env m i j =
      if env.baseline i j < 20 then max 0.01 (1 + m.change_percent.getD 0 / 100)
      else 1 := by
  simp only [modFactor, hb, Option.some.injEq,
    show (("baseline" : String) = "hotspot") = False from eq_false (by decide),
    show (("baseline" : String) = "borough") = False from eq_false (by decide),
    if_false, if_true]

/-- The Gaussian falloff weight is 1 at the hotspot centre. -/
theorem gaussWeight_at_center (rdeg : ℝ) : gaussWeight rdeg 0 = 1 := by
  simp [gaussWeight]

/-- The Gaussian falloff weight is strictly positive. -/
theorem gaussWeight_pos (rdeg d : ℝ) : 0 < gaussWeight rdeg d :=
  Real.exp_pos _

/-- The Gaussian falloff weight never exceeds its central peak value 1. -/
theorem gaussWeight_le_one (rdeg d : ℝ) : gaussWeight rdeg d ≤ 1 := by
  unfold gaussWeight
  rw [show (1 : ℝ) = Real.exp 0 from (Real.exp_zero).symm]
  apply Real.exp_le_exp.mpr
  apply div_nonpos_of_nonpos_of_nonneg
  · simp [sq_nonneg]
  · positivity

/-- The Gaussian falloff weight strictly decreases with distance (for a
positive radius and nonnegative distances). -/
theorem gaussWeight_strict_anti (rdeg : ℝ) (hr : 0 < rdeg) {d1 d2 : ℝ}
    (h0 : 0 ≤ d1) (h12 : d1 < d2) :
    gaussWeight rdeg d2 < gaussWeight rdeg d1 := by
  unfold gaussWeight
  apply Real.exp_lt_exp.mpr
  have hc : 0 < 2 * (rdeg / 2) ^ 2 := by positivity
  rw [div_lt_div_iff_of_pos_right hc]
  have : d1 ^ 2 < d2 ^ 2 := by nlinarith
  linarith

/-- With `change_percent ≥ -99` the hotspot factor is never clipped by the
0.01 floor. -/
theorem hotspot_factor_unclipped (cp rdeg d : ℝ) (hcp : -99 ≤ cp) :
    0.01 ≤ 1 + cp / 100 * gaussWeight rdeg d := by
  have h1 := gaussWeight_le_one rdeg d
  have h0 := gaussWeight_pos rdeg d
  nlinarith [mul_nonneg (by linarith : (0 : ℝ) ≤ cp / 100 + 0.99) (le_of_lt h0)]

/-- C4: if the intervention is flagged unrelated, `apply_intervention` returns
exactly the boundary-filtered baseline point list (same points, same values)
together with the zeroed reporting totals. -/
theorem C4_unrelated_noop (env : Env) (iv : Intervention)
    (h : iv.is_unrelated = true) :
    applyIntervention env iv =
      .ok (getBaselineGrid env,
           some { baseline_tons_co2 := 0, reduced_tons_co2 := 0,
                  annual_savings_tons_co2 := 0, percentage_reduction := 0,
                  is_unrelated := true }) := by
  simp [applyIntervention, h, getBaselineGrid]

/-- Witness for C4 on a concrete environment and intervention. -/
theorem C4_unrelated_noop_witness :
    ivU.is_unrelated = true ∧
    applyIntervention env1 ivU =
      .ok (getBaselineGrid env1,
           some { baseline_tons_co2 := 0, reduced_tons_co2 := 0,
                  annual_savings_tons_co2 := 0, percentage_reduction := 0,
                  is_unrelated := true }) :=
  ⟨rfl, C4_unrelated_noop env1 ivU rfl⟩

/-- C5: a floor-type modification (source type string `baseline`) multiplies
exactly the cells whose pre-modification baseline value is strictly below 20
by `max 0.01 (1 + change_percent/100)`, and leaves every cell at or above the
threshold unchanged by that rule. -/
theorem C5_floor_scope (env : Env) (m : GeoMod) (cp : ℝ) (g : ℕ → ℕ → ℝ)
    (ht : m.type = some "baseline") (hcp : m.change_percent = some cp) :
    ∃ g', applyMod env g m = .ok g' ∧ ∀ i j,
      (env.baseline i j < 20 → g' i j = g i j * max 0.01 (1 + cp / 100)) ∧
      (20 ≤ env.baseline i j → g' i j = g i j) := by
  refine ⟨_, applyMod_baseline env g m ht, ?_⟩
  intro i j
  constructor
  · intro hlow
    simp only [if_pos hlow, hcp, Option.getD_some]
  · intro hhigh
    simp only [if_neg (not_lt.mpr hhigh)]

/-- Witness for C5 at a concrete floor rule and environment. -/
theorem C5_floor_scope_witness :
    m5.type = some "baseline" ∧ m5.change_percent = some (-50) ∧
    (∃ g', applyMod env1 env1.baseline m5 = .ok g' ∧ ∀ i j,
      (env1.baseline i j < 20 → g' i j = env1.baseline i j * max 0.01 (1 + (-50) / 100)) ∧
      (20 ≤ env1.baseline i j → g' i j = env1.baseline i j)) :=
  ⟨rfl, rfl, C5_floor_scope env1 m5 (-50) env1.baseline rfl rfl⟩

/-- C9: a hotspot rule with nonpositive `radius_km` is a no-op — it alters no
cell and raises no error — and the remaining rules of the intervention are
applied exactly as they would be without it. -/
theorem C9_degenerate_radius (env : Env) (m : GeoMod) (tlat tlon r : ℝ)
    (ht : m.type = some "hotspot") (hla : m.lat = some tlat) (hlo : m.lon = some tlon)
    (hr : m.radius_km = some r) (hr0 : r ≤ 0) :
    (∀ g, applyMod env g m = .ok g) ∧
    (∀ rest, applyModsGrid env (m :: rest) = applyModsGrid env rest) := by
  have key : ∀ g : ℕ → ℕ → ℝ, applyMod env g m = .ok g := by
    intro g
    rw [applyMod_hotspot env g m tlat tlon ht hla hlo]
    congr 1
    funext i j
    rw [if_neg]
    rw [hr, Option.getD_some]
    apply not_lt.mpr
    calc r / 111 ≤ 0 := div_nonpos_of_nonpos_of_nonneg hr0 (by norm_num)
      _ ≤ ptDist (env.lats i) (env.lons j) tlat tlon := Real.sqrt_nonneg _
  refine ⟨key, ?_⟩
  intro rest
  unfold applyModsGrid
  rw [List.foldlM_cons, key env.baseline]
  rfl

/-- Witness for C9 at a zero-radius hotspot rule. -/
theorem C9_degenerate_radius_witness :
    m9.type = some "hotspot" ∧ m9.radius_km = some 0 ∧ (0 : ℝ) ≤ 0 ∧
    (∀ g, applyMod env1 g m9 = .ok g) ∧
    (∀ rest, applyModsGrid env1 (m9 :: rest) = applyModsGrid env1 rest) := by
  refine ⟨rfl, rfl, le_refl 0, ?_⟩
  exact C9_degenerate_radius env1 m9 40.70 (-73.95) 0 rfl rfl rfl rfl (le_refl 0)

/-- C8 (code behaviour at the failing input): a borough rule missing its
required `change_percent` field is applied as a silent no-op — the engine
returns the baseline unchanged and raises no error, instead of failing fast
with a descriptive error as the spec requires. -/
theorem C8_missing_field_silent_noop :
    applyIntervention env1 iv8 = .ok (getBaselineGrid env1, none) := by
  have hmax : max (0.01 : ℝ) (1 + (m8.change_percent.getD 0) / 100) = 1 := by
    simp only [m8]
    norm_num
  have key : applyMod env1 env1.baseline m8 = .ok env1.baseline := by
    rw [applyMod_borough env1 env1.baseline m8 rfl]
    simp only [hmax, mul_one, ite_self]
  have hfold : applyModsGrid env1 iv8.geographic_modifications = .ok env1.baseline := by
    unfold applyModsGrid
    rw [show iv8.geographic_modifications = [m8] from rfl, List.foldlM_cons, key]
    rfl
  unfold applyIntervention
  rw [if_neg (by decide : ¬iv8.is_unrelated = true), hfold]
  rfl

/-- C2: applying two (non-raising) modifications multiplies each cell's
baseline value by the product of the two rules' individual per-cell factors —
sequential multiplicative compounding — and in the spec's example (a hotspot
rule at the cell's own location and a region rule containing the cell, both
-20%) the factors are 0.8 and 0.8 and compound to 0.64, which differs from
their sum, maximum and average. -/
theorem C2_compounding (env : Env) (m1 m2 : GeoMod)
    (hw1 : WellFormedMod m1) (hw2 : WellFormedMod m2) :
    applyModsGrid env [m1, m2] = .ok (fun i j =>
      env.baseline i j * (modFactor env m1 i j * modFactor env m2 i j)) ∧
    ∀ i j tlat tlon r a,
      m1.type = some "hotspot" → m1.change_percent = some (-20) →
      m1.lat = some tlat → m1.lon = some tlon → m1.radius_km = some r → 0 < r →
      env.lats i = tlat → env.lons j = tlon →
      m2.type = some "borough" → m2.change_percent = some (-20) → m2.area = some a →
      isInTargetArea env.boundaries (env.lats i) (env.lons j) a = true →
      modFactor env m1 i j = 0.8 ∧ modFactor env m2 i j = 0.8 ∧
      modFactor env m1 i j * modFactor env m2 i j = 0.64 ∧
      ((0.64 : ℝ) ≠ 0.8 + 0.8 ∧ (0.64 : ℝ) ≠ max 0.8 0.8 ∧
        (0.64 : ℝ) ≠ (0.8 + 0.8) / 2) := by
  constructor
  · have hwf : ∀ m ∈ [m1, m2], WellFormedMod m := by
      intro m hm
      rcases List.mem_cons.mp hm with h | hm'
      · exact h ▸ hw1
      · rcases List.mem_cons.mp hm' with h | hm''
        · exact h ▸ hw2
        · exact absurd hm'' (List.not_mem_nil m)
    rw [applyModsGrid_eq env [m1, m2] hwf]
    congr 1
    funext i j
    simp [mul_assoc]
  · intro i j tlat tlon r a ht1 hcp1 hla1 hlo1 hr1 hrpos hlat hlon ht2 hcp2 ha2 hin
    have hd0 : ptDist (env.lats i) (env.lons j) tlat tlon = 0 := by
      rw [hlat, hlon]
      unfold ptDist
      simp
    have hf1 : modFactor env m1 i j = 0.8 := by
      rw [modFactor_hotspot env m1 tlat tlon i j ht1 hla1 hlo1, hd0, hr1, Option.getD_some]
      rw [if_pos (by positivity), gaussWeight_at_center, hcp1, Option.getD_some]
      norm_num
    have hf2 : modFactor env m2 i j = 0.8 := by
      rw [modFactor_borough env m2 i j ht2, ha2]
      rw [show (some a).getD "Unknown" = a from rfl, if_pos hin, hcp2, Option.getD_some]
      norm_num
    refine ⟨hf1, hf2, ?_, by norm_num, by norm_num, by norm_num⟩
    rw [hf1, hf2]
    norm_num

/-- Witness for C2 with a concrete hotspot-plus-citywide pair at -20% each. -/
theorem C2_compounding_witness :
    (applyModsGrid env1 [h2w, b2w] = .ok (fun i j =>
      env1.baseline i j * (modFactor env1 h2w i j * modFactor env1 b2w i j))) ∧
    modFactor env1 h2w 0 0 = 0.8 ∧ modFactor env1 b2w 0 0 = 0.8 ∧
    modFactor env1 h2w 0 0 * modFactor env1 b2w 0 0 = 0.64 := by
  have hw1 : WellFormedMod h2w := by
    intro h
    exact ⟨rfl, rfl⟩
  have hw2 : WellFormedMod b2w := by
    intro h
    exact absurd h (by decide)
  have hmain := C2_compounding env1 h2w b2w hw1 hw2
  have hex := hmain.2 0 0 40.70 (-73.95) 5 "citywide" rfl rfl rfl rfl rfl
    (by norm_num) rfl rfl rfl rfl rfl (by decide)
  exact ⟨hmain.1, hex.1, hex.2.1, hex.2.2.1⟩

/-- C1 counterexample: stacking the floor rule `change_percent = -100` twice
drives the single cell to `0.0001 x` its baseline value 10, strictly below
the claimed global floor `0.01 x baseline`. -/
theorem C1_counterexample :
    applyIntervention env1 iv1 = .ok ([(40.70, -73.95, (1 : ℝ) / 1000)], none) ∧
    (1 : ℝ) / 1000 < 0.01 * env1.baseline 0 0 := by
  have hwf : ∀ m ∈ iv1.geographic_modifications, WellFormedMod m := by
    intro m hm
    intro h
    have hm' : m = modB := by
      rcases List.mem_cons.mp hm with h1 | h1
      · exact h1
      · rcases List.mem_cons.mp h1 with h2 | h2
        · exact h2
        · exact absurd h2 (List.not_mem_nil m)
    rw [hm'] at h
    exact absurd h (by decide)
  have hfac : ∀ i j : ℕ, modFactor env1 modB i j = 0.01 := by
    intro i j
    rw [modFactor_baseline env1 modB i j rfl]
    rw [if_pos (by norm_num [env1] : env1.baseline i j < 20)]
    simp only [modB, Option.getD_some]
    norm_num
  have hfold := applyModsGrid_eq env1 iv1.geographic_modifications hwf
  have hun : ¬iv1.is_unrelated = true := by decide
  constructor
  · unfold applyIntervention
    rw [if_neg hun, hfold]
    show Except.ok _ = _
    congr 1
    rw [show iv1.spatial_pattern = none from rfl]
    show (gridPoints env1 _, _) = _
    congr 1
    rw [gridPoints_one env1 rfl rfl rfl]
    show [((40.70 : ℝ), (-73.95 : ℝ), env1.baseline 0 0 *
      ((iv1.geographic_modifications.map (fun m => modFactor env1 m 0 0)).prod))] = _
    rw [show iv1.geographic_modifications = [modB, modB] from rfl]
    simp only [List.map_cons, List.map_nil, List.prod_cons, List.prod_nil, hfac]
    norm_num [env1]
  · norm_num [env1]

/-- C1 amended: each individual rule's factor is floored at 0.01, so in the
absence of a spatial pattern every output cell equals its baseline value
times a product of per-rule factors bounded below by
`0.01 ^ (number of rules)`; the output is therefore never negative and never
exactly zero when the baseline cell is positive.  (The original global
`0.01 x baseline` floor only holds per rule: stacked rules compound below
it.) -/
theorem C1_floor_amended (env : Env) (iv : Intervention)
    (hun : iv.is_unrelated = false) (hsp : iv.spatial_pattern = none)
    (hwf : ∀ m ∈ iv.geographic_modifications, WellFormedMod m) :
    ∃ g, applyIntervention env iv = .ok (gridPoints env g, none) ∧
      ∀ i j, (0 ≤ env.baseline i j →
          0.01 ^ iv.geographic_modifications.length * env.baseline i j ≤ g i j) ∧
        (0 < env.baseline i j → 0 < g i j) := by
  refine ⟨fun i j => env.baseline i j *
      ((iv.geographic_modifications.map (fun m => modFactor env m i j)).prod), ?_, ?_⟩
  · unfold applyIntervention
    rw [if_neg (by simp [hun]), applyModsGrid_eq env iv.geographic_modifications hwf]
    rw [hsp]
    rfl
  · intro i j
    obtain ⟨hge, hpos⟩ := prod_modFactor_ge env i j iv.geographic_modifications
    constructor
    · intro hb
      calc (0.01 : ℝ) ^ iv.geographic_modifications.length * env.baseline i j
          ≤ ((iv.geographic_modifications.map (fun m => modFactor env m i j)).prod) *
              env.baseline i j := by
            exact mul_le_mul_of_nonneg_right hge hb
        _ = env.baseline i j *
              ((iv.geographic_modifications.map (fun m => modFactor env m i j)).prod) := by
            ring
    · intro hb
      exact mul_pos hb hpos

/-- Witness for the amended C1 on the concrete two-rule intervention. -/
theorem C1_floor_amended_witness :
    iv1.is_unrelated = false ∧ iv1.spatial_pattern = none ∧
    (∃ g, applyIntervention env1 iv1 = .ok (gridPoints env1 g, none) ∧
      ∀ i j, (0 ≤ env1.baseline i j →
          0.01 ^ iv1.geographic_modifications.length * env1.baseline i j ≤ g i j) ∧
        (0 < env1.baseline i j → 0 < g i j)) := by
  refine ⟨rfl, rfl, ?_⟩
  apply C1_floor_amended env1 iv1 rfl rfl
  intro m hm
  intro h
  have hm' : m = modB := by
    rcases List.mem_cons.mp hm with h1 | h1
    · exact h1
    · rcases List.mem_cons.mp h1 with h2 | h2
      · exact h2
      · exact absurd h2 (List.not_mem_nil m)
  rw [hm'] at h
  exact absurd h (by decide)

/-- Degree-space distances are nonnegative. -/
theorem ptDist_nonneg (a b c d : ℝ) : 0 ≤ ptDist a b c d :=
  Real.sqrt_nonneg _

/-- C3 counterexample: with `change_percent = -200` (allowed by the claim,
which only requires a nonzero change) the 0.01 clip makes the change
magnitude equal at two strictly different in-radius distances, so the
magnitude does not strictly decrease with distance. -/
theorem C3_counterexample :
    cellDist env3 0 0 40.70 (-73.95) = 0 ∧
    cellDist env3 0 1 40.70 (-73.95) = 0.1 ∧
    cellDist env3 0 0 40.70 (-73.95) < cellDist env3 0 1 40.70 (-73.95) ∧
    cellDist env3 0 1 40.70 (-73.95) < (111 : ℝ) / 111 ∧
    modFactor env3 h3 0 0 = 0.01 ∧ modFactor env3 h3 0 1 = 0.01 ∧
    ¬(|modFactor env3 h3 0 1 - 1| < |modFactor env3 h3 0 0 - 1|) := by
  have hd0 : ptDist (env3.lats 0) (env3.lons 0) 40.70 (-73.95) = 0 := by
    unfold ptDist
    simp only [env3]
    norm_num
  have hd1 : ptDist (env3.lats 0) (env3.lons 1) 40.70 (-73.95) = 0.1 := by
    rw [show env3.lats 0 = (40.70 : ℝ) from rfl, show env3.lons 1 = (-74.05 : ℝ) from rfl]
    unfold ptDist
    rw [show ((40.70 : ℝ) - 40.70) ^ 2 + (-74.05 - -73.95) ^ 2 = (0.1 : ℝ) ^ 2 by norm_num]
    exact Real.sqrt_sq (by norm_num)
  have hf0 : modFactor env3 h3 0 0 = 0.01 := by
    rw [modFactor_hotspot env3 h3 40.70 (-73.95) 0 0 rfl rfl rfl]
    rw [show h3.radius_km = some 111 from rfl, Option.getD_some, hd0]
    rw [if_pos (by norm_num), gaussWeight_at_center]
    rw [show h3.change_percent = some (-200) from rfl, Option.getD_some]
    norm_num
  have hEbound : (0.98 : ℝ) ≤ gaussWeight (111 / 111) 0.1 := by
    unfold gaussWeight
    rw [show -((0.1 : ℝ) ^ 2) / (2 * ((111 / 111) / 2) ^ 2) = -0.02 by norm_num]
    have h := Real.add_one_le_exp (-(0.02) : ℝ)
    linarith
  have hf1 : modFactor env3 h3 0 1 = 0.01 := by
    rw [modFactor_hotspot env3 h3 40.70 (-73.95) 0 1 rfl rfl rfl]
    rw [show h3.radius_km = some 111 from rfl, Option.getD_some, hd1]
    rw [if_pos (by norm_num)]
    rw [show h3.change_percent = some (-200) from rfl, Option.getD_some]
    apply max_eq_left
    nlinarith [hEbound]
  refine ⟨hd0, hd1, ?_, by rw [show cellDist env3 0 1 40.70 (-73.95) = 0.1 from hd1]; norm_num,
    hf0, hf1, ?_⟩
  · rw [show cellDist env3 0 0 40.70 (-73.95) = 0 from hd0,
      show cellDist env3 0 1 40.70 (-73.95) = 0.1 from hd1]
    norm_num
  · rw [hf0, hf1]
    exact lt_irrefl _

/-- C3 amended: for a single well-formed hotspot rule with positive radius
and `change_percent` nonzero but at least -99 (so the 0.01 clip never binds),
the change magnitude strictly decreases with distance inside the radius;
every cell at distance at least `radius_km / 111` is exactly unchanged by the
rule; and the Gaussian weight peaks at exactly 1 at the centre. -/
theorem C3_amended (env : Env) (m : GeoMod) (tlat tlon r cp : ℝ)
    (ht : m.type = some "hotspot") (hla : m.lat = some tlat) (hlo : m.lon = some tlon)
    (hr : m.radius_km = some r) (hcp : m.change_percent = some cp)
    (hrpos : 0 < r) (hcp0 : cp ≠ 0) (hcpb : -99 ≤ cp) :
    (∀ g, applyMod env g m = .ok (fun i j => g i j * modFactor env m i j)) ∧
    (∀ i j i' j',
      cellDist env i j tlat tlon < cellDist env i' j' tlat tlon →
      cellDist env i' j' tlat tlon < r / 111 →
      |modFactor env m i' j' - 1| < |modFactor env m i j - 1|) ∧
    (∀ i j, r / 111 ≤ cellDist env i j tlat tlon → modFactor env m i j = 1) ∧
    gaussWeight (r / 111) 0 = 1 := by
  have hwf : WellFormedMod m := by
    intro _
    rw [hla, hlo]
    exact ⟨rfl, rfl⟩
  have hrd : (0 : ℝ) < r / 111 := by positivity
  have hfac : ∀ i j, cellDist env i j tlat tlon < r / 111 →
      modFactor env m i j =
        1 + cp / 100 * gaussWeight (r / 111) (cellDist env i j tlat tlon) := by
    intro i j hd
    have hd' : ptDist (env.lats i) (env.lons j) tlat tlon < r / 111 := hd
    rw [modFactor_hotspot env m tlat tlon i j ht hla hlo, hr, Option.getD_some,
      hcp, Option.getD_some, if_pos hd']
    exact max_eq_right (hotspot_factor_unclipped cp (r / 111) _ hcpb)
  refine ⟨fun g => applyMod_eq env g m hwf, ?_, ?_, gaussWeight_at_center _⟩
  · intro i j i' j' hlt hin'
    have hin : cellDist env i j tlat tlon < r / 111 := lt_trans hlt hin'
    rw [hfac i j hin, hfac i' j' hin']
    have habs : ∀ d : ℝ, |1 + cp / 100 * gaussWeight (r / 111) d - 1| =
        |cp / 100| * gaussWeight (r / 111) d := by
      intro d
      rw [show (1 : ℝ) + cp / 100 * gaussWeight (r / 111) d - 1 =
        cp / 100 * gaussWeight (r / 111) d by ring]
      rw [abs_mul, abs_of_pos (gaussWeight_pos _ _)]
    rw [habs, habs]
    apply mul_lt_mul_of_pos_left
    · exact gaussWeight_strict_anti (r / 111) hrd (ptDist_nonneg _ _ _ _) hlt
    · exact abs_pos.mpr (div_ne_zero hcp0 (by norm_num))
  · intro i j hd
    have hd' : ¬ptDist (env.lats i) (env.lons j) tlat tlon < r / 111 := not_lt.mpr hd
    rw [modFactor_hotspot env m tlat tlon i j ht hla hlo, hr, Option.getD_some,
      if_neg hd']

/-- Witness for the amended C3 at a concrete -50% one-degree hotspot. -/
theorem C3_amended_witness :
    (0 : ℝ) < 111 ∧ (-50 : ℝ) ≠ 0 ∧ (-99 : ℝ) ≤ -50 ∧
    ((∀ g, applyMod env3 g m3w = .ok (fun i j => g i j * modFactor env3 m3w i j)) ∧
     (∀ i j i' j',
       cellDist env3 i j 40.70 (-73.95) < cellDist env3 i' j' 40.70 (-73.95) →
       cellDist env3 i' j' 40.70 (-73.95) < (111 : ℝ) / 111 →
       |modFactor env3 m3w i' j' - 1| < |modFactor env3 m3w i j - 1|) ∧
     (∀ i j, (111 : ℝ) / 111 ≤ cellDist env3 i j 40.70 (-73.95) →
       modFactor env3 m3w i j = 1) ∧
     gaussWeight ((111 : ℝ) / 111) 0 = 1) :=
  ⟨by norm_num, by norm_num, by norm_num,
   C3_amended env3 m3w 40.70 (-73.95) 111 (-50) rfl rfl rfl rfl rfl
     (by norm_num) (by norm_num) (by norm_num)⟩

/-- C6 counterexample: at cell distance 0 (weight 1) the blender leaves the
cell at `0.7 x old + 0.3 x proxy` (= 70.03 for old 100, proxy 0.1), not at
the proxy value `old x (1 - w) + proxy x w = 0.1` claimed by the spec. -/
theorem C6_counterexample :
    blendOpenaq (fun _ => 40.70) (fun _ => -73.95) 1 1 g6 [stat6] 0 0 = 70.03 ∧
    (70.03 : ℝ) ≠ g6 0 0 * (1 - 1) + stat6.value * 0.0025 * 1 := by
  have ha : argminAbs (fun _ => (40.70 : ℝ)) stat6.lat 1 = 0 := by
    unfold argminAbs
    rw [show List.range 1 = [0] from rfl]
    simp
  have hb : argminAbs (fun _ => (-73.95 : ℝ)) stat6.lon 1 = 0 := by
    unfold argminAbs
    rw [show List.range 1 = [0] from rfl]
    simp
  constructor
  · show blendStation (fun _ => 40.70) (fun _ => -73.95) 1 1 g6 stat6 0 0 = 70.03
    unfold blendStation
    dsimp only
    rw [ha, hb]
    rw [if_pos (by norm_num)]
    norm_num [g6, stat6, Real.sqrt_zero, Real.exp_zero]
  · norm_num [g6, stat6]

/-- C6 amended: for each measurement, every cell of the radius-2 index window
around the nearest grid cell becomes `old x 0.7 + proxy x 0.3 x w` with
`w = exp(-distance^2 / 2)` and `proxy = value x 0.0025`; in particular the
centre cell (distance 0, w = 1) becomes `0.7 x old + 0.3 x proxy`, not the
proxy value. -/
theorem C6_blend_formula (lats lons : ℕ → ℝ) (nlat nlon : ℕ) (g : ℕ → ℕ → ℝ)
    (s : Station) (i j : ℕ)
    (hwin : (argminAbs lats s.lat nlat - 2 ≤ i ∧
             i < min nlat (argminAbs lats s.lat nlat + 3)) ∧
            (argminAbs lons s.lon nlon - 2 ≤ j ∧
             j < min nlon (argminAbs lons s.lon nlon + 3))) :
    blendOpenaq lats lons nlat nlon g [s] i j =
      g i j * 0.7 + s.value * 0.0025 * 0.3 *
        Real.exp (-(Real.sqrt (((i : ℝ) - argminAbs lats s.lat nlat) ^ 2 +
          ((j : ℝ) - argminAbs lons s.lon nlon) ^ 2) ^ 2) / 2) ∧
    (i = argminAbs lats s.lat nlat → j = argminAbs lons s.lon nlon →
      blendOpenaq lats lons nlat nlon g [s] i j =
        g i j * 0.7 + s.value * 0.0025 * 0.3) := by
  have hmain : blendOpenaq lats lons nlat nlon g [s] i j =
      g i j * 0.7 + s.value * 0.0025 * 0.3 *
        Real.exp (-(Real.sqrt (((i : ℝ) - argminAbs lats s.lat nlat) ^ 2 +
          ((j : ℝ) - argminAbs lons s.lon nlon) ^ 2) ^ 2) / 2) := by
    show blendStation lats lons nlat nlon g s i j = _
    unfold blendStation
    dsimp only
    rw [if_pos hwin]
  refine ⟨hmain, ?_⟩
  intro hi hj
  rw [hmain, hi, hj]
  rw [show ((argminAbs lats s.lat nlat : ℝ) - argminAbs lats s.lat nlat) ^ 2 +
    ((argminAbs lons s.lon nlon : ℝ) - argminAbs lons s.lon nlon) ^ 2 = 0 by ring]
  norm_num [Real.sqrt_zero, Real.exp_zero]

/-- Witness for the amended C6 on the concrete one-station 1x1 grid. -/
theorem C6_blend_formula_witness :
    ((argminAbs (fun _ => (40.70 : ℝ)) stat6.lat 1 - 2 ≤ 0 ∧
      0 < min 1 (argminAbs (fun _ => (40.70 : ℝ)) stat6.lat 1 + 3)) ∧
     (argminAbs (fun _ => (-73.95 : ℝ)) stat6.lon 1 - 2 ≤ 0 ∧
      0 < min 1 (argminAbs (fun _ => (-73.95 : ℝ)) stat6.lon 1 + 3))) ∧
    (blendOpenaq (fun _ => (40.70 : ℝ)) (fun _ => (-73.95 : ℝ)) 1 1 g6 [stat6] 0 0 =
      g6 0 0 * 0.7 + stat6.value * 0.0025 * 0.3 *
        Real.exp (-(Real.sqrt ((((0 : ℕ) : ℝ) - argminAbs (fun _ => (40.70 : ℝ)) stat6.lat 1) ^ 2 +
          (((0 : ℕ) : ℝ) - argminAbs (fun _ => (-73.95 : ℝ)) stat6.lon 1) ^ 2) ^ 2) / 2) ∧
     (0 = argminAbs (fun _ => (40.70 : ℝ)) stat6.lat 1 →
      0 = argminAbs (fun _ => (-73.95 : ℝ)) stat6.lon 1 →
      blendOpenaq (fun _ => (40.70 : ℝ)) (fun _ => (-73.95 : ℝ)) 1 1 g6 [stat6] 0 0 =
        g6 0 0 * 0.7 + stat6.value * 0.0025 * 0.3)) := by
  have ha : argminAbs (fun _ => (40.70 : ℝ)) stat6.lat 1 = 0 := by
    unfold argminAbs
    rw [show List.range 1 = [0] from rfl]
    simp
  have hb : argminAbs (fun _ => (-73.95 : ℝ)) stat6.lon 1 = 0 := by
    unfold argminAbs
    rw [show List.range 1 = [0] from rfl]
    simp
  have hw : (argminAbs (fun _ => (40.70 : ℝ)) stat6.lat 1 - 2 ≤ 0 ∧
      0 < min 1 (argminAbs (fun _ => (40.70 : ℝ)) stat6.lat 1 + 3)) ∧
      (argminAbs (fun _ => (-73.95 : ℝ)) stat6.lon 1 - 2 ≤ 0 ∧
      0 < min 1 (argminAbs (fun _ => (-73.95 : ℝ)) stat6.lon 1 + 3)) := by
    rw [ha, hb]
    refine ⟨⟨by norm_num, by norm_num⟩, ⟨by norm_num, by norm_num⟩⟩
  exact ⟨hw, C6_blend_formula (fun _ => (40.70 : ℝ)) (fun _ => (-73.95 : ℝ)) 1 1 g6 stat6 0 0 hw⟩

/-- C7: on a uniform baseline of 100, a single region rule (source type
string `borough`) for a TestZone that contains exactly one grid cell makes
that cell 70 and leaves every other cell at 100. -/
theorem C7_end_to_end (env : Env) (i0 j0 : ℕ)
    (hi0 : i0 < env.nlat) (hj0 : j0 < env.nlon)
    (hb : ∀ i, i < env.nlat → ∀ j, j < env.nlon → env.baseline i j = 100)
    (harea : ∀ i, i < env.nlat → ∀ j, j < env.nlon →
      (isInTargetArea env.boundaries (env.lats i) (env.lons j) "TestZone" = true ↔
        (i = i0 ∧ j = j0))) :
    ∃ g, applyIntervention env { geographic_modifications := [m7] } =
        .ok (gridPoints env g, none) ∧
      g i0 j0 = 70 ∧
      ∀ i, i < env.nlat → ∀ j, j < env.nlon → ¬(i = i0 ∧ j = j0) → g i j = 100 := by
  have hwf : ∀ m ∈ [m7], WellFormedMod m := by
    intro m hm h
    have hm' : m = m7 := by
      rcases List.mem_cons.mp hm with h1 | h1
      · exact h1
      · exact absurd h1 (List.not_mem_nil m)
    rw [hm'] at h
    exact absurd h (by decide)
  refine ⟨fun i j => env.baseline i j *
      ((([m7]).map (fun m => modFactor env m i j)).prod), ?_, ?_, ?_⟩
  · unfold applyIntervention
    rw [if_neg (by decide)]
    show (applyModsGrid env [m7]).map _ = _
    rw [applyModsGrid_eq env [m7] hwf]
    rfl
  · have hin : isInTargetArea env.boundaries (env.lats i0) (env.lons j0) "TestZone" = true :=
      (harea i0 hi0 j0 hj0).mpr ⟨rfl, rfl⟩
    simp only [List.map_cons, List.map_nil, List.prod_cons, List.prod_nil, mul_one]
    rw [modFactor_borough env m7 i0 j0 rfl]
    rw [show m7.area.getD "Unknown" = "TestZone" from rfl, if_pos hin]
    rw [hb i0 hi0 j0 hj0, show m7.change_percent.getD 0 = (-30 : ℝ) from rfl]
    norm_num
  · intro i hi j hj hne
    have hnin : ¬(isInTargetArea env.boundaries (env.lats i) (env.lons j) "TestZone" = true) :=
      fun hc => hne ((harea i hi j hj).mp hc)
    simp only [List.map_cons, List.map_nil, List.prod_cons, List.prod_nil, mul_one]
    rw [modFactor_borough env m7 i j rfl]
    rw [show m7.area.getD "Unknown" = "TestZone" from rfl, if_neg hnin, mul_one]
    exact hb i hi j hj

/-- Witness for C7 on the 1x1 TestZone environment. -/
theorem C7_end_to_end_witness :
    (0 < env7.nlat) ∧ (0 < env7.nlon) ∧
    (∃ g, applyIntervention env7 { geographic_modifications := [m7] } =
        .ok (gridPoints env7 g, none) ∧
      g 0 0 = 70 ∧
      ∀ i, i < env7.nlat → ∀ j, j < env7.nlon → ¬(i = 0 ∧ j = 0) → g i j = 100) := by
  refine ⟨by decide, by decide, ?_⟩
  apply C7_end_to_end env7 0 0 (by decide) (by decide)
  · intro i hi j hj
    rfl
  · intro i hi j hj
    have hi' : i = 0 := Nat.lt_one_iff.mp hi
    have hj' : j = 0 := Nat.lt_one_iff.mp hj
    subst hi'
    subst hj'
    constructor
    · intro _
      exact ⟨rfl, rfl⟩
    · intro _
      decide

/-- C10 counterexample: the lowercase name `manhattan` is not `citywide` or
`all` and equals none of the five exact dict keys, yet with polygon data
present it does match the `Manhattan` row by case-insensitive substring, and
the borough rule then alters the cell (100 becomes 70) — refuting the claim
that any such name matches no borough under polygon data. -/
theorem C10_counterexample :
    boroughBoundsRect.find? (fun p => p.1 == "manhattan") = none ∧
    strLower "manhattan" ≠ "citywide" ∧ strLower "manhattan" ≠ "all" ∧
    isInTargetArea (some gd10) (env10.lats 0) (env10.lons 0) "manhattan" = true ∧
    Except.map (fun g => g 0 0) (applyModsGrid env10 [m10]) = .ok 70 ∧
    (70 : ℝ) ≠ env10.baseline 0 0 := by
  have hin : isInTargetArea (some gd10) (env10.lats 0) (env10.lons 0) "manhattan" = true := by
    decide
  refine ⟨rfl, by decide, by decide, hin, ?_, by norm_num [env10]⟩
  have hwf : ∀ m ∈ [m10], WellFormedMod m := by
    intro m hm h
    have hm' : m = m10 := by
      rcases List.mem_cons.mp hm with h1 | h1
      · exact h1
      · exact absurd h1 (List.not_mem_nil m)
    rw [hm'] at h
    exact absurd h (by decide)
  rw [applyModsGrid_eq env10 [m10] hwf]
  show Except.ok _ = _
  congr 1
  simp only [List.map_cons, List.map_nil, List.prod_cons, List.prod_nil, mul_one]
  rw [modFactor_borough env10 m10 0 0 rfl]
  rw [show m10.area.getD "Unknown" = "manhattan" from rfl]
  rw [show env10.boundaries = some gd10 from rfl, if_pos hin]
  rw [show m10.change_percent.getD 0 = (-30 : ℝ) from rfl]
  norm_num [env10]

/-- C10 amended: in rectangular-fallback mode a region name that is not
`citywide`/`all` and matches no exact dict key is applied to every cell
(containment is `true` everywhere); with polygon data the rule alters no cell
provided the lowered name has no substring overlap in either direction with
any row's lowered `boro_name` — exact-key inequality alone is not enough,
since case-insensitive substring matching can still select a borough row. -/
theorem C10_fallback_vs_polygon (target : String)
    (h1 : strLower target ≠ "citywide") (h2 : strLower target ≠ "all") :
    (∀ lat lon, boroughBoundsRect.find? (fun p => p.1 == target) = none →
       isInTargetArea none lat lon target = true) ∧
    (∀ (env : Env) (g : ℕ → ℕ → ℝ) (m : GeoMod) (cp : ℝ),
       env.boundaries = none →
       boroughBoundsRect.find? (fun p => p.1 == target) = none →
       m.type = some "borough" → m.area = some target → m.change_percent = some cp →
       applyMod env g m = .ok (fun i j => g i j * max 0.01 (1 + cp / 100))) ∧
    (∀ (gd : GeoData) lat lon,
       (∀ row ∈ gd.rows, strIn (strLower target) (strLower row.boro_name) = false ∧
          strIn (strLower row.boro_name) (strLower target) = false) →
       isInTargetArea (some gd) lat lon target = false) ∧
    (∀ (env : Env) (g : ℕ → ℕ → ℝ) (m : GeoMod) (gd : GeoData),
       env.boundaries = some gd →
       (∀ row ∈ gd.rows, strIn (strLower target) (strLower row.boro_name) = false ∧
          strIn (strLower row.boro_name) (strLower target) = false) →
       m.type = some "borough" → m.area = some target →
       applyMod env g m = .ok g) := by
  have hfall : ∀ lat lon : ℝ, boroughBoundsRect.find? (fun p => p.1 == target) = none →
      isInTargetArea none lat lon target = true := by
    intro lat lon hfind
    unfold isInTargetArea
    split
    · rename_i hcond
      exfalso
      simp only [Bool.or_eq_true, decide_eq_true_eq] at hcond
      rcases hcond with h | h
      · exact h1 h
      · exact h2 h
    · rw [hfind]
  have hpoly : ∀ (gd : GeoData) (lat lon : ℝ),
      (∀ row ∈ gd.rows, strIn (strLower target) (strLower row.boro_name) = false ∧
        strIn (strLower row.boro_name) (strLower target) = false) →
      isInTargetArea (some gd) lat lon target = false := by
    intro gd lat lon hnom
    unfold isInTargetArea
    split
    · rename_i hcond
      exfalso
      simp only [Bool.or_eq_true, decide_eq_true_eq] at hcond
      rcases hcond with h | h
      · exact h1 h
      · exact h2 h
    · have hfind : gd.rows.find? (fun row =>
          strIn (strLower target) (strLower row.boro_name) ||
          strIn (strLower row.boro_name) (strLower target)) = none := by
        apply List.find?_eq_none.mpr
        intro row hrow
        obtain ⟨ha, hb⟩ := hnom row hrow
        simp [ha, hb]
      show (match gd.rows.find? (fun row =>
          strIn (strLower target) (strLower row.boro_name) ||
          strIn (strLower row.boro_name) (strLower target)) with
        | some row => row.containsPt lat lon
        | none => false) = false
      rw [hfind]
  refine ⟨hfall, ?_, hpoly, ?_⟩
  · intro env g m cp hbnd hfind ht ha hcp
    rw [applyMod_borough env g m ht]
    congr 1
    funext i j
    have hin : isInTargetArea env.boundaries (env.lats i) (env.lons j)
        (m.area.getD "Unknown") = true := by
      rw [ha, show (some target).getD "Unknown" = target from rfl, hbnd]
      exact hfall _ _ hfind
    rw [if_pos hin, hcp, Option.getD_some]
  · intro env g m gd hbnd hnom ht ha
    rw [applyMod_borough env g m ht]
    congr 1
    funext i j
    have hin : isInTargetArea env.boundaries (env.lats i) (env.lons j)
        (m.area.getD "Unknown") = false := by
      rw [ha, show (some target).getD "Unknown" = target from rfl, hbnd]
      exact hpoly gd _ _ hnom
    rw [if_neg (by simp [hin])]

/-- Witness for the amended C10 at the unrecognized name `TestZone`. -/
theorem C10_fallback_vs_polygon_witness :
    strLower "TestZone" ≠ "citywide" ∧ strLower "TestZone" ≠ "all" ∧
    ((∀ lat lon : ℝ, boroughBoundsRect.find? (fun p => p.1 == "TestZone") = none →
       isInTargetArea none lat lon "TestZone" = true) ∧
     (∀ (env : Env) (g : ℕ → ℕ → ℝ) (m : GeoMod) (cp : ℝ),
       env.boundaries = none →
       boroughBoundsRect.find? (fun p => p.1 == "TestZone") = none →
       m.type = some "borough" → m.area = some "TestZone" → m.change_percent = some cp →
       applyMod env g m = .ok (fun i j => g i j * max 0.01 (1 + cp / 100))) ∧
     (∀ (gd : GeoData) (lat lon : ℝ),
       (∀ row ∈ gd.rows, strIn (strLower "TestZone") (strLower row.boro_name) = false ∧
          strIn (strLower row.boro_name) (strLower "TestZone") = false) →
       isInTargetArea (some gd) lat lon "TestZone" = false) ∧
     (∀ (env : Env) (g : ℕ → ℕ → ℝ) (m : GeoMod) (gd : GeoData),
       env.boundaries = some gd →
       (∀ row ∈ gd.rows, strIn (strLower "TestZone") (strLower row.boro_name) = false ∧
          strIn (strLower row.boro_name) (strLower "TestZone") = false) →
       m.type = some "borough" → m.area = some "TestZone" →
       applyMod env g m = .ok g)) :=
  ⟨by decide, by decide,
   C10_fallback_vs_polygon "TestZone" (by decide) (by decide)⟩

end DataProcessor

end
